import Mathlib

/-!
Verification development for the react-native-paper component library.

The definitions below are shallow embeddings of the component logic in
src/: pixel quantities are modelled as `Int` (the placement arithmetic
uses only addition, subtraction and comparison), JavaScript `undefined`
for an optional prop or callback is `Option.none`, and a render that can
throw in the host framework returns `Except Unit`.
-/

namespace Paper

/-! ## Menu positioning (Menu.render)

`menuLeft` and `menuTop` reproduce the horizontal and vertical placement
branches of Menu.render: the mutation of the local variables `left` and
`top` between the measurement state and the final position style.  The
vertical fit test compares `top` against `windowLayout.width`, exactly as
the source does. -/

/-- Minimum padding between the edge of the screen and the menu. -/
def SCREEN_INDENT : Int := 8

/-- A measured layout, as stored in Menu state (width and height only). -/
structure Layout where
  width : Int
  height : Int
deriving DecidableEq, Repr

/-- The horizontal placement branch of Menu.render: starts from
`left = anchor.x` and either keeps the left-aligned position (clamping
into the screen when `0 <= left < SCREEN_INDENT`) or right-aligns the
menu to the anchor and clamps when the right edge falls within
SCREEN_INDENT of the window edge. -/
def menuLeft (left0 : Int) (windowLayout menuLayout anchorLayout : Layout) : Int :=
  if left0 ≤ windowLayout.width - menuLayout.width - SCREEN_INDENT then
    if 0 ≤ left0 ∧ left0 < SCREEN_INDENT then SCREEN_INDENT else left0
  else
    let left := left0 + anchorLayout.width - menuLayout.width
    let right := left + menuLayout.width
    if right ≤ windowLayout.width ∧ right > windowLayout.width - SCREEN_INDENT then
      windowLayout.width - SCREEN_INDENT - menuLayout.width
    else left

/-- The vertical placement branch of Menu.render: starts from
`top = anchor.y`.  The fit test compares against `windowLayout.width`
(not height), as written in the source. -/
def menuTop (top0 : Int) (windowLayout menuLayout anchorLayout : Layout)
    (additionalVerticalValue : Int) : Int :=
  if top0 ≤ windowLayout.width - menuLayout.height - SCREEN_INDENT then
    if 0 ≤ top0 ∧ top0 < SCREEN_INDENT then SCREEN_INDENT else top0
  else
    let top := top0 + anchorLayout.height - menuLayout.height
    let bottom := top + menuLayout.height + additionalVerticalValue
    if bottom ≤ windowLayout.height ∧ bottom > windowLayout.height - SCREEN_INDENT then
      windowLayout.height - SCREEN_INDENT - menuLayout.height - additionalVerticalValue
    else top

/-- C1 counterexample: window 100x100, menu 50x10, anchor 1x1 at
(43, 10), all rectangles with positive width and height.  The horizontal
branch right-aligns the menu to the anchor, producing left = -6, which
is off screen, so the computed position does not keep the SCREEN_INDENT
margin. -/
theorem menu_position_counterexample :
    ¬ (SCREEN_INDENT ≤ menuLeft 43 ⟨100, 100⟩ ⟨50, 10⟩ ⟨1, 1⟩ ∧
       menuLeft 43 ⟨100, 100⟩ ⟨50, 10⟩ ⟨1, 1⟩ + 50 ≤ 100 - SCREEN_INDENT ∧
       SCREEN_INDENT ≤ menuTop 10 ⟨100, 100⟩ ⟨50, 10⟩ ⟨1, 1⟩ 0 ∧
       menuTop 10 ⟨100, 100⟩ ⟨50, 10⟩ ⟨1, 1⟩ 0 + 10 ≤ 100 - SCREEN_INDENT) := by
  decide

/-- C1 (amended): when the anchor position already respects the screen
margins and the menu fits from there — SCREEN_INDENT ≤ left, left plus
the menu width is at most windowWidth - SCREEN_INDENT, SCREEN_INDENT ≤
top, and top plus the menu height is at most both windowWidth -
SCREEN_INDENT (the vertical fit test compares against the window width)
and windowHeight - SCREEN_INDENT — the computed position equals the
anchor position and satisfies all four margin bounds.  In general the
computed position can violate the margins. -/
theorem menu_position_inside (left0 top0 addl : Int) (w m a : Layout)
    (hl1 : SCREEN_INDENT ≤ left0) (hl2 : left0 + m.width ≤ w.width - SCREEN_INDENT)
    (ht1 : SCREEN_INDENT ≤ top0) (ht2 : top0 + m.height ≤ w.width - SCREEN_INDENT)
    (ht3 : top0 + m.height ≤ w.height - SCREEN_INDENT) :
    menuLeft left0 w m a = left0 ∧ menuTop top0 w m a addl = top0 ∧
    SCREEN_INDENT ≤ menuLeft left0 w m a ∧
    menuLeft left0 w m a + m.width ≤ w.width - SCREEN_INDENT ∧
    SCREEN_INDENT ≤ menuTop top0 w m a addl ∧
    menuTop top0 w m a addl + m.height ≤ w.height - SCREEN_INDENT := by
  have hL : menuLeft left0 w m a = left0 := by
    unfold menuLeft
    rw [if_pos (by simp only [SCREEN_INDENT] at *; omega),
      if_neg (by simp only [SCREEN_INDENT] at *; omega)]
  have hT : menuTop top0 w m a addl = top0 := by
    unfold menuTop
    rw [if_pos (by simp only [SCREEN_INDENT] at *; omega),
      if_neg (by simp only [SCREEN_INDENT] at *; omega)]
  exact ⟨hL, hT, by rw [hL]; exact hl1, by rw [hL]; exact hl2,
    by rw [hT]; exact ht1, by rw [hT]; exact ht3⟩

/-- C1 witness: a concrete anchor at (20, 20) with menu 30x30 in a
100x100 window satisfies the hypotheses, and the computed position keeps
the margins. -/
theorem menu_position_inside_witness :
    menuLeft 20 ⟨100, 100⟩ ⟨30, 30⟩ ⟨5, 5⟩ = 20 ∧
    menuTop 20 ⟨100, 100⟩ ⟨30, 30⟩ ⟨5, 5⟩ 0 = 20 ∧
    SCREEN_INDENT ≤ menuLeft 20 ⟨100, 100⟩ ⟨30, 30⟩ ⟨5, 5⟩ ∧
    menuLeft 20 ⟨100, 100⟩ ⟨30, 30⟩ ⟨5, 5⟩ + 30 ≤ 100 - SCREEN_INDENT ∧
    SCREEN_INDENT ≤ menuTop 20 ⟨100, 100⟩ ⟨30, 30⟩ ⟨5, 5⟩ 0 ∧
    menuTop 20 ⟨100, 100⟩ ⟨30, 30⟩ ⟨5, 5⟩ 0 + 30 ≤ 100 - SCREEN_INDENT := by
  have h := menu_position_inside 20 20 0 ⟨100, 100⟩ ⟨30, 30⟩ ⟨5, 5⟩
    (by decide) (by decide) (by decide) (by decide) (by decide)
  simpa using h

/-! ## Listener registration (Modal, Menu)

Events at the component boundary: a successful show (Modal._showModal;
Menu._show reaching its measurement-success path), a hide
(Modal._hideModal; Menu._hide), and an unmount.  The state tracks which
global listeners registered by the component are currently installed. -/

/-- A lifecycle event of Modal or Menu. -/
inductive LifecycleEvent
  | show
  | hide
  | unmount
deriving DecidableEq, Repr

/-- Modal's back-handler listener: _showModal adds the hardwareBackPress
listener and _hideModal removes it.  Modal.js declares no
componentWillUnmount, so an unmount leaves the listener state
unchanged. -/
def modalStep (registered : Bool) : LifecycleEvent → Bool
  | .show => true
  | .hide => false
  | .unmount => registered

/-- Folding Modal lifecycle events from an initial listener state. -/
def modalRun (registered : Bool) (es : List LifecycleEvent) : Bool :=
  es.foldl modalStep registered

/-- Menu's global listeners: the hardwareBackPress handler and the
window-dimensions change handler. -/
structure MenuListeners where
  back : Bool
  dims : Bool
deriving DecidableEq, Repr

/-- Menu._show adds both listeners; Menu._hide and
Menu.componentWillUnmount remove both. -/
def menuStep (_s : MenuListeners) : LifecycleEvent → MenuListeners
  | .show => ⟨true, true⟩
  | .hide => ⟨false, false⟩
  | .unmount => ⟨false, false⟩

/-- Folding Menu lifecycle events from an initial listener state. -/
def menuRun (s : MenuListeners) (es : List LifecycleEvent) : MenuListeners :=
  es.foldl menuStep s

/-- C2 counterexample: Modal shown and then unmounted without a hide.
Modal.js has no componentWillUnmount, so the hardwareBackPress listener
registered by _showModal is still installed after the unmount,
contradicting the claim that an unmount removes it. -/
theorem modal_unmount_leak :
    ¬ (modalRun false [LifecycleEvent.show, LifecycleEvent.unmount] = false) := by
  decide

/-- C2 (amended): Menu removes both of its listeners on every hide and
on every unmount, so after any event sequence ending in a hide or an
unmount no Menu listener remains; Modal removes its back-handler
listener on every hide, but its unmount performs no cleanup, so a Modal
unmounted while visible leaves the listener registered. -/
theorem listener_cleanup (es : List LifecycleEvent) (s : MenuListeners) (b : Bool) :
    menuRun s (es ++ [LifecycleEvent.hide]) = ⟨false, false⟩ ∧
    menuRun s (es ++ [LifecycleEvent.unmount]) = ⟨false, false⟩ ∧
    modalRun b (es ++ [LifecycleEvent.hide]) = false := by
  refine ⟨?_, ?_, ?_⟩ <;>
    simp [menuRun, modalRun, List.foldl_append, menuStep, modalStep]

/-! ## Visibility toggles and animation direction (Modal, Menu)

Modal.componentDidUpdate compares the previous and current `visible`
prop and calls _showModal or _hideModal, each of which starts a timing
animation on the opacity value.  Menu.componentDidUpdate calls
_updateVisibility, which dispatches to _show (opacity timing to 1, in
parallel with the scale timing) or _hide (opacity timing to 0); the
functions below record the opacity timing started on the
measurement-success path. -/

/-- Configuration of an Animated.timing call: target value and duration
in milliseconds. -/
structure TimingConfig where
  toValue : Int
  duration : Int
deriving DecidableEq, Repr

/-- Menu animation duration (ms). -/
def ANIMATION_DURATION : Int := 250

/-- The opacity timing started by Modal.componentDidUpdate for a given
transition of the visible prop (none when the prop did not change). -/
def modalComponentDidUpdate (prevVisible visible : Bool) : Option TimingConfig :=
  if prevVisible ≠ visible then
    if visible then some ⟨1, 280⟩ else some ⟨0, 280⟩
  else none

/-- The opacity timing started by Menu.componentDidUpdate /
_updateVisibility for a given transition of the visible prop. -/
def menuComponentDidUpdate (prevVisible visible : Bool) : Option TimingConfig :=
  if prevVisible ≠ visible then
    if visible then some ⟨1, ANIMATION_DURATION⟩ else some ⟨0, ANIMATION_DURATION⟩
  else none

/-- C3: on every transition of the visible prop, Modal and Menu start an
opacity timing animation whose target is 1 for a false-to-true
transition and 0 for a true-to-false transition. -/
theorem visible_toggle_animation (prev vis : Bool) (h : prev ≠ vis) :
    modalComponentDidUpdate prev vis = some ⟨if vis then 1 else 0, 280⟩ ∧
    menuComponentDidUpdate prev vis = some ⟨if vis then 1 else 0, ANIMATION_DURATION⟩ := by
  constructor <;> cases vis <;>
    simp [modalComponentDidUpdate, menuComponentDidUpdate, h]

/-- C3 witness: the false-to-true transition starts timings with target
value 1. -/
theorem visible_toggle_animation_witness :
    modalComponentDidUpdate false true = some ⟨1, 280⟩ ∧
    menuComponentDidUpdate false true = some ⟨1, ANIMATION_DURATION⟩ := by
  have h := visible_toggle_animation false true (by decide)
  simpa using h

/-! ## Children traversal (Card, DialogActions, TouchableRipple)

A React child is either an element (whose component type carries a
displayName) or raw text.  Reading `child.type.displayName` on a text
child throws in the host (the type of a text node is undefined), and we
model a throwing computation as `Except Unit`. -/

/-- A React child node: an element with a displayName, or raw text. -/
inductive ReactNode
  | element (displayName : String)
  | text (s : String)
deriving DecidableEq, Repr

/-- The expression `child.type.displayName` in Card.render: yields the
displayName of an element and throws on a text child. -/
def readDisplayName : ReactNode → Except Unit String
  | .element d => .ok d
  | .text _ => .error ()

/-- The traversal `Children.map(children, child => child.type.displayName)`
in Card.render, with the host exception propagated. -/
def cardSiblings : List ReactNode → Except Unit (List String)
  | [] => .ok []
  | c :: cs =>
    match readDisplayName c with
    | .error e => .error e
    | .ok d =>
      match cardSiblings cs with
      | .error e => .error e
      | .ok ds => .ok (d :: ds)

/-- The derived props Card.render passes to each cloned child. -/
structure CardChildProps where
  index : Nat
  total : Nat
  siblings : List String
deriving DecidableEq, Repr

/-- Card.render's children traversal: computes total = Children.count,
siblings = the display names of all children, and clones child number i
with props index = i, total, siblings. -/
def cardRenderChildren (children : List ReactNode) :
    Except Unit (List (ReactNode × CardChildProps)) :=
  match cardSiblings children with
  | .error e => .error e
  | .ok siblings =>
    .ok (children.enum.map fun p => (p.2, ⟨p.1, children.length, siblings⟩))

/-- DialogActions clones every child with the single prop
compact = true. -/
def dialogActionsChildren (children : List ReactNode) : List (ReactNode × Bool) :=
  children.map fun c => (c, true)

/-- React.Children.only: returns the sole child and throws for any other
number of children. -/
def childrenOnly (children : List ReactNode) : Except Unit ReactNode :=
  match children with
  | [c] => .ok c
  | _ => .error ()

/-- The props TouchableRipple passes to the underlying touchable
(TouchableNativeFeedback or TouchableHighlight — both receive the same
disabled flag) together with its wrapped sole child. -/
structure RippleRendered where
  disabled : Bool
  child : ReactNode
deriving DecidableEq, Repr

/-- TouchableRipple.render: computes
disabled = disabledProp or onPress absent, and wraps
React.Children.only(children); the host error from Children.only
propagates unguarded. -/
def touchableRippleRender (disabledProp : Bool) (onPress : Option Unit)
    (children : List ReactNode) : Except Unit RippleRendered :=
  let disabled := disabledProp || onPress.isNone
  match childrenOnly children with
  | .error e => .error e
  | .ok c => .ok ⟨disabled, c⟩

/-- Helper: the sibling traversal on a list of element children
succeeds and returns the display names. -/
theorem cardSiblings_elements (ds : List String) :
    cardSiblings (ds.map ReactNode.element) = Except.ok ds := by
  induction ds with
  | nil => rfl
  | cons d ds ih => simp [cardSiblings, readDisplayName, ih]

/-- C4: for element children, Card's render clones child number i with
index = i, total = the number of children, and siblings = the list of
all display names (and nothing else: the codomain of CardChildProps is
exactly these three fields), and DialogActions clones every child with
the single prop compact = true. -/
theorem card_dialog_children (ds : List String) (i : Nat) (d : String)
    (hd : ds[i]? = some d) :
    (cardRenderChildren (ds.map ReactNode.element)).toOption.bind (fun l => l[i]?) =
      some (ReactNode.element d, ⟨i, ds.length, ds⟩) ∧
    (dialogActionsChildren (ds.map ReactNode.element))[i]? =
      some (ReactNode.element d, true) := by
  constructor
  · simp [cardRenderChildren, cardSiblings_elements, Except.toOption,
      List.getElem?_map, List.getElem?_enum, hd]
  · simp [dialogActionsChildren, List.getElem?_map, hd]

/-- C4 witness: the children list with display names A and B, at index
1. -/
theorem card_dialog_children_witness :
    (cardRenderChildren (["A", "B"].map ReactNode.element)).toOption.bind
        (fun l => l[1]?) =
      some (ReactNode.element "B", ⟨1, 2, ["A", "B"]⟩) ∧
    (dialogActionsChildren (["A", "B"].map ReactNode.element))[1]? =
      some (ReactNode.element "B", true) := by
  have h := card_dialog_children ["A", "B"] 1 "B" (by decide)
  simpa using h

/-- C5: malformed children are not defensively handled: whenever the
children list does not have exactly one element, TouchableRipple.render
propagates the React.Children.only error with no catch or fallback, and
whenever any Card child is a text node the unguarded read of
child.type.displayName makes Card.render's traversal throw. -/
theorem malformed_children_unhandled (dp : Bool) (op : Option Unit)
    (children cs1 cs2 : List ReactNode) (s : String)
    (h : children.length ≠ 1) :
    touchableRippleRender dp op children = Except.error () ∧
    cardRenderChildren (cs1 ++ ReactNode.text s :: cs2) = Except.error () := by
  constructor
  · match children, h with
    | [], _ => rfl
    | [c], h => exact absurd rfl h
    | c1 :: c2 :: cs, _ => rfl
  · have hs : cardSiblings (cs1 ++ ReactNode.text s :: cs2) = Except.error () := by
      induction cs1 with
      | nil => rfl
      | cons c cs ih =>
        cases c with
        | element d => simp [cardSiblings, readDisplayName, ih]
        | text t => rfl
    simp [cardRenderChildren, hs]

/-- C5 witness: an empty children list for TouchableRipple and a single
text child for Card. -/
theorem malformed_children_unhandled_witness :
    touchableRippleRender false none [] = Except.error () ∧
    cardRenderChildren [ReactNode.text "hi"] = Except.error () := by
  have h := malformed_children_unhandled false none [] [] [] "hi" (by decide)
  simpa using h

/-! ## Snackbar auto-dismiss timer

The duration prop is a JavaScript number which may be Infinity
(DURATION_INDEFINITE); the finite durations used by the component are
integers.  The timer state holds the delay of the pending
setTimeout(onDismiss, duration), if any.  Events: the show animation
callback (Snackbar._show's start callback), a hide (Snackbar._hide,
which begins with clearTimeout), and an unmount
(componentWillUnmount, which calls clearTimeout). -/

/-- A JavaScript duration value: a finite number of milliseconds or
Infinity. -/
inductive JSDuration
  | finite (ms : Int)
  | infinity
deriving DecidableEq, Repr

/-- Snackbar.DURATION_SHORT. -/
def DURATION_SHORT : JSDuration := .finite 2000

/-- Snackbar.DURATION_LONG (the default duration). -/
def DURATION_LONG : JSDuration := .finite 3500

/-- Snackbar.DURATION_INDEFINITE = Infinity. -/
def DURATION_INDEFINITE : JSDuration := .infinity

/-- A Snackbar timer event. -/
inductive SnackbarEvent
  | showComplete
  | hide
  | unmount
deriving DecidableEq, Repr

/-- One step of the Snackbar timer state: the show-animation callback
schedules setTimeout(onDismiss, duration) unless duration is
DURATION_INDEFINITE (in which case nothing is scheduled); _hide and
componentWillUnmount clear any pending timer. -/
def snackbarStep (duration : JSDuration) (timer : Option JSDuration) :
    SnackbarEvent → Option JSDuration
  | .showComplete =>
    if duration ≠ DURATION_INDEFINITE then some duration else timer
  | .hide => none
  | .unmount => none

/-- C6: when the show animation finishes with a non-indefinite duration,
onDismiss is scheduled to fire after exactly that duration; with
DURATION_INDEFINITE no timer is scheduled (the state is unchanged); and
a hide or an unmount cancels any pending timer. -/
theorem snackbar_timer (d : JSDuration) (t : Option JSDuration) :
    (d ≠ DURATION_INDEFINITE →
      snackbarStep d t SnackbarEvent.showComplete = some d) ∧
    snackbarStep DURATION_INDEFINITE t SnackbarEvent.showComplete = t ∧
    snackbarStep d t SnackbarEvent.hide = none ∧
    snackbarStep d t SnackbarEvent.unmount = none := by
  refine ⟨fun h => ?_, ?_, rfl, rfl⟩
  · simp [snackbarStep, h]
  · simp [snackbarStep]

/-- C6 witness: the default duration DURATION_LONG schedules the
dismissal after 3500 ms, DURATION_INDEFINITE schedules nothing, and hide
and unmount clear the timer. -/
theorem snackbar_timer_witness :
    snackbarStep DURATION_LONG none SnackbarEvent.showComplete =
      some DURATION_LONG ∧
    snackbarStep DURATION_INDEFINITE none SnackbarEvent.showComplete = none ∧
    snackbarStep DURATION_LONG (some DURATION_LONG) SnackbarEvent.hide = none ∧
    snackbarStep DURATION_LONG (some DURATION_LONG) SnackbarEvent.unmount = none := by
  have h1 := snackbar_timer DURATION_LONG none
  have h2 := snackbar_timer DURATION_LONG (some DURATION_LONG)
  exact ⟨h1.1 (by decide), h1.2.1, h2.2.2.1, h2.2.2.2⟩

/-! ## Theme forwarding into styles (SearchBar, Card)

Style objects are modelled with the fields the claims are about
(borderRadius, elevation, color); a style array flattens left to right
with later non-absent fields overriding earlier ones, as the host
framework does. -/

/-- A style object restricted to the modelled fields; an absent field is
none. -/
structure ViewStyle where
  borderRadius : Option Int
  elevation : Option Int
  color : Option String
deriving DecidableEq, Repr

/-- The style with no fields set. -/
def emptyStyle : ViewStyle := ⟨none, none, none⟩

/-- The second field when present, otherwise the first. -/
def fieldOverride (base over : Option α) : Option α :=
  match over with
  | some v => some v
  | none => base

/-- Merge two styles: fields of the second override those of the
first when present. -/
def overrideStyle (base over : ViewStyle) : ViewStyle :=
  ⟨fieldOverride base.borderRadius over.borderRadius,
   fieldOverride base.elevation over.elevation,
   fieldOverride base.color over.color⟩

/-- Flatten a style array left to right. -/
def flattenStyles (ss : List ViewStyle) : ViewStyle :=
  ss.foldl overrideStyle emptyStyle

/-- Theme colors used by the modelled components. -/
structure ThemeColors where
  text : String
  primary : String
  placeholder : String
  accent : String
  disabled : String
deriving DecidableEq, Repr

/-- A theme object: roundness, dark flag and colors. -/
structure Theme where
  roundness : Int
  dark : Bool
  colors : ThemeColors
deriving DecidableEq, Repr

/-- SearchBar's container style array:
[{ borderRadius: roundness, elevation: 4 }, styles.container, style]
(styles.container sets only layout fields outside the model). -/
def searchBarContainerStyle (theme : Theme) (style : ViewStyle) : ViewStyle :=
  flattenStyles [⟨some theme.roundness, some 4, none⟩, emptyStyle, style]

/-- SearchBar's text input style array:
[styles.input, { color: textColor }] with textColor = colors.text
(styles.input sets only fields outside the model). -/
def searchBarInputStyle (theme : Theme) : ViewStyle :=
  flattenStyles [emptyStyle, ⟨none, none, some theme.colors.text⟩]

/-- Card's style array:
[styles.card, { borderRadius: roundness, elevation }, style] where
elevation is the animated elevation value (styles.card sets only a
margin). -/
def cardStyle (theme : Theme) (elevation : Int) (style : ViewStyle) : ViewStyle :=
  flattenStyles [emptyStyle, ⟨some theme.roundness, some elevation, none⟩, style]

/-- C7: for every theme, SearchBar's container border radius equals
theme.roundness and its input text color equals theme.colors.text, and
Card's border radius equals theme.roundness, provided the caller style
override does not itself set borderRadius (the style prop is flattened
last). -/
theorem theme_forwarding (theme : Theme) (style : ViewStyle) (e : Int)
    (h1 : style.borderRadius = none) :
    (searchBarContainerStyle theme style).borderRadius = some theme.roundness ∧
    (searchBarInputStyle theme).color = some theme.colors.text ∧
    (cardStyle theme e style).borderRadius = some theme.roundness := by
  refine ⟨?_, ?_, ?_⟩ <;>
    simp [searchBarContainerStyle, searchBarInputStyle, cardStyle,
      flattenStyles, overrideStyle, fieldOverride, emptyStyle, h1]

/-- C7 witness: a concrete theme with roundness 4 and black text, no
caller style override. -/
theorem theme_forwarding_witness :
    (searchBarContainerStyle ⟨4, false, ⟨"black", "blue", "gray", "pink", "lightgray"⟩⟩
        emptyStyle).borderRadius = some 4 ∧
    (searchBarInputStyle ⟨4, false, ⟨"black", "blue", "gray", "pink", "lightgray"⟩⟩).color =
      some "black" ∧
    (cardStyle ⟨4, false, ⟨"black", "blue", "gray", "pink", "lightgray"⟩⟩ 2
        emptyStyle).borderRadius = some 4 := by
  have h := theme_forwarding ⟨4, false, ⟨"black", "blue", "gray", "pink", "lightgray"⟩⟩
    emptyStyle 2 (by decide)
  simpa using h

/-! ## Disabled handling (TouchableRipple, Checkbox, RadioButton, Switch) -/

/-- Checkbox.render passes onPress = (disabled ? undefined : onPress)
to its TouchableRipple. -/
def checkboxOnPress (disabled : Bool) (onPress : Option Unit) : Option Unit :=
  if disabled then none else onPress

/-- RadioButton.render passes onPress = (disabled ? undefined : onPress)
to its TouchableRipple. -/
def radioButtonOnPress (disabled : Bool) (onPress : Option Unit) : Option Unit :=
  if disabled then none else onPress

/-- SwitchRow.render passes
onValueChange = (disabled ? undefined : onValueChange) to the underlying
Switch primitive. -/
def switchOnValueChange (disabled : Bool) (onValueChange : Option Unit) : Option Unit :=
  if disabled then none else onValueChange

/-- Whether a press or value change reaches a caller-supplied callback:
it does exactly when a handler is installed. -/
def invokesCallback : Option Unit → Bool
  | some _ => true
  | none => false

/-- C8: TouchableRipple passes disabled = (disabledProp or onPress
absent) to the underlying touchable; this flag is true exactly when the
disabled prop is true or onPress is absent, and in particular with no
onPress the touchable is disabled even when the disabled prop is
false. -/
theorem touchable_disabled (dp : Bool) (op : Option Unit) (c : ReactNode) :
    touchableRippleRender dp op [c] = Except.ok ⟨dp || op.isNone, c⟩ ∧
    ((dp || op.isNone) = true ↔ (dp = true ∨ op = none)) ∧
    touchableRippleRender false none [c] = Except.ok ⟨true, c⟩ := by
  refine ⟨rfl, ?_, rfl⟩
  cases op <;> cases dp <;> simp

/-- C9: with disabled = true, Checkbox and RadioButton pass
onPress = undefined to their TouchableRipple (which therefore renders a
disabled touchable) and SwitchRow passes onValueChange = undefined to
the Switch primitive, so no caller-supplied callback can be invoked
while disabled. -/
theorem disabled_blocks_callbacks (op ovc : Option Unit) (c : ReactNode) :
    checkboxOnPress true op = none ∧
    radioButtonOnPress true op = none ∧
    switchOnValueChange true ovc = none ∧
    touchableRippleRender false (checkboxOnPress true op) [c] = Except.ok ⟨true, c⟩ ∧
    invokesCallback (checkboxOnPress true op) = false ∧
    invokesCallback (radioButtonOnPress true op) = false ∧
    invokesCallback (switchOnValueChange true ovc) = false := by
  exact ⟨rfl, rfl, rfl, rfl, rfl, rfl, rfl⟩

/-! ## SearchBar clear button -/

/-- What SearchBar.render produces, restricted to the modelled parts:
the container style, the input text color, and whether the clear
(close) icon button is rendered (the source renders it under the
JavaScript truthiness test `value ?`, which for a string means it is
non-empty). -/
structure SearchBarRendered where
  containerStyle : ViewStyle
  inputColor : Option String
  showsClearButton : Bool
deriving DecidableEq, Repr

/-- SearchBar.render. -/
def searchBarRender (theme : Theme) (value : String) (style : ViewStyle) :
    SearchBarRendered :=
  ⟨searchBarContainerStyle theme style,
   (searchBarInputStyle theme).color,
   !value.isEmpty⟩

/-- SearchBar._handleClearPress calls this.props.onChangeText with this
argument. -/
def searchBarHandleClearPress : String := ""

/-- C10: SearchBar renders the clear icon button if and only if the
value prop is a non-empty string, and pressing it calls onChangeText
with the empty string. -/
theorem searchbar_clear_button (theme : Theme) (value : String) (style : ViewStyle) :
    ((searchBarRender theme value style).showsClearButton = true ↔ value ≠ "") ∧
    searchBarHandleClearPress = "" := by
  refine ⟨?_, rfl⟩
  simp only [searchBarRender, Bool.not_eq_true', Bool.eq_false_iff, ne_eq]
  rw [not_iff_not]
  exact String.isEmpty_iff value

end Paper
